import Mathlib

/-!
Verification development for the satellite-orbit-sim repository.

The C++ sources under src/ are shallowly embedded below.  Machine floats
are modelled as rationals; the trigonometric library functions, which the
embedded code only ever consumes through their results, are passed in as
abstract function parameters, and whenever a claim needs them it carries
the usual analytic bounds (such as values lying in the interval from -1
to 1) as explicit hypotheses.  Vulkan handles are modelled as natural
number identifiers; calls into the Vulkan driver are modelled by their
documented effect on the renderer state, with external driver responses
(acquire / present result codes, acquired image indices) supplied as
inputs.  Code that throws std::runtime_error is embedded in the Except
monad with the exact message strings of the source.
-/

namespace OrbitSim

/-! ## Orbital mechanics (src/src/orbit/orbital_mechanics.cpp) -/

/-- OrbitalMechanics::setEccentricity: the stored value after a call with
argument `value`.  Source: m_eccentricity = std::max(0.0f, std::min(0.99f, value)). -/
def setEccentricity (value : ℚ) : ℚ :=
  max 0 (min (99/100) value)

/-- Initial eccentricity from the OrbitalMechanics constructor
(m_eccentricity(0.3f)). -/
def initialEccentricity : ℚ := 3/10

/-- Stored eccentricity after a sequence of setEccentricity calls, starting
from the constructor's initial value.  Each call overwrites the field. -/
def eccentricityAfter (calls : List ℚ) : ℚ :=
  calls.foldl (fun _ v => setEccentricity v) initialEccentricity

/-- Newton-Raphson denominator in OrbitalMechanics::calculateEccentricAnomaly:
funcDerivative = 1.0f - e * std::cos(E), with `c` standing for std::cos(E). -/
def keplerDenominator (e c : ℚ) : ℚ := 1 - e * c

/-- Convergence threshold of the Newton-Raphson loop (1e-8f). -/
def convergenceThreshold : ℚ := 1/100000000

/-- Iteration body of OrbitalMechanics::calculateEccentricAnomaly, with the
sine and cosine library functions abstracted as parameters.  `fuel` is the
remaining iteration count (MAX_ITERATIONS = 20 at the top call); the loop
stops early once the correction is below the convergence threshold. -/
def keplerIter (sinf cosf : ℚ → ℚ) (e meanAnomaly : ℚ) : Nat → ℚ → ℚ
  | 0, E => E
  | fuel + 1, E =>
    let funcValue := E - e * sinf E - meanAnomaly
    let funcDerivative := 1 - e * cosf E
    let correction := funcValue / funcDerivative
    let E2 := E - correction
    if |correction| < convergenceThreshold then E2
    else keplerIter sinf cosf e meanAnomaly fuel E2

/-- OrbitalMechanics::calculateEccentricAnomaly: solves Kepler's equation
starting from the mean anomaly as the initial guess, with MAX_ITERATIONS = 20. -/
def calculateEccentricAnomaly (sinf cosf : ℚ → ℚ) (e meanAnomaly : ℚ) : ℚ :=
  keplerIter sinf cosf e meanAnomaly 20 meanAnomaly

/-! ## Earth sphere mesh generation (Renderer::createEarthGeometry,
src/src/vulkan/renderer.cpp lines 953-1013) -/

/-- One (position, normal) vertex of the Earth mesh, six floats in the
interleaved vertex array of the source. -/
structure EarthVertex where
  x : ℚ
  y : ℚ
  z : ℚ
  nx : ℚ
  ny : ℚ
  nz : ℚ
deriving Repr, DecidableEq

/-- Vertex grid of Renderer::createEarthGeometry: for stack in 0..numStacks and
slice in 0..numSlices (both inclusive) one vertex is emitted from spherical
coordinates.  The float constant glm::pi and the cosine/sine library calls
are abstracted as parameters `piq`, `cosf`, `sinf`. -/
def createEarthVertices (cosf sinf : ℚ → ℚ) (piq : ℚ)
    (numStacks numSlices : Nat) (radius : ℚ) : List EarthVertex :=
  (List.range (numStacks + 1)).flatMap fun (stack : Nat) =>
    (List.range (numSlices + 1)).map fun (slice : Nat) =>
      let phi := (stack : ℚ) / (numStacks : ℚ) * piq
      let cosPhi := cosf phi
      let sinPhi := sinf phi
      let theta := (slice : ℚ) / (numSlices : ℚ) * 2 * piq
      let cosTheta := cosf theta
      let sinTheta := sinf theta
      { x := radius * sinPhi * cosTheta
        y := radius * cosPhi
        z := radius * sinPhi * sinTheta
        nx := sinPhi * cosTheta
        ny := cosPhi
        nz := sinPhi * sinTheta }

/-- Index buffer of Renderer::createEarthGeometry: for each grid cell
(stack < numStacks, slice < numSlices) two counter-clockwise triangles are
emitted as six uint32 indices. -/
def createEarthIndices (numStacks numSlices : Nat) : List Nat :=
  (List.range numStacks).flatMap fun stack =>
    (List.range numSlices).flatMap fun slice =>
      let topLeft := stack * (numSlices + 1) + slice
      let topRight := topLeft + 1
      let bottomLeft := (stack + 1) * (numSlices + 1) + slice
      let bottomRight := bottomLeft + 1
      [topLeft, bottomLeft, topRight, topRight, bottomLeft, bottomRight]

/-! ## Swapchain (src/src/vulkan/swapchain.cpp, revision src/unnamed/part_002,
and device selection in src/src/vulkan/instance.cpp) -/

/-- Extent in pixels (VkExtent2D). -/
structure Extent2D where
  width : Nat
  height : Nat
deriving Repr, DecidableEq

/-- Surface format (VkSurfaceFormatKHR), with the Vulkan enum values of
format and color space kept as their numeric codes. -/
structure SurfaceFormat where
  format : Nat
  colorSpace : Nat
deriving Repr, DecidableEq

/-- Vulkan enum value VK_FORMAT_B8G8R8A8_SRGB. -/
def VK_FORMAT_B8G8R8A8_SRGB : Nat := 50

/-- Vulkan enum value VK_COLOR_SPACE_SRGB_NONLINEAR_KHR. -/
def VK_COLOR_SPACE_SRGB_NONLINEAR_KHR : Nat := 0

/-- Vulkan enum value VK_PRESENT_MODE_MAILBOX_KHR. -/
def VK_PRESENT_MODE_MAILBOX_KHR : Nat := 1

/-- Vulkan enum value VK_PRESENT_MODE_FIFO_KHR. -/
def VK_PRESENT_MODE_FIFO_KHR : Nat := 2

/-- Largest uint32 value, the sentinel in VkSurfaceCapabilitiesKHR.currentExtent. -/
def UINT32_MAX : Nat := 2 ^ 32 - 1

/-- Surface capabilities (the fields of VkSurfaceCapabilitiesKHR that the
source reads). -/
structure SurfaceCapabilities where
  minImageCount : Nat
  maxImageCount : Nat
  currentExtent : Extent2D
  minImageExtent : Extent2D
  maxImageExtent : Extent2D
deriving Repr, DecidableEq

/-- VulkanSwapchain::SwapchainSupportDetails as filled in by
querySwapchainSupport: when the driver reports zero formats or zero present
modes the corresponding vector is simply left empty (no error is raised). -/
structure SwapchainSupportDetails where
  capabilities : SurfaceCapabilities
  formats : List SurfaceFormat
  presentModes : List Nat
deriving Repr, DecidableEq

/-- VulkanSwapchain::chooseSwapSurfaceFormat.  The source scans for
B8G8R8A8_SRGB with SRGB_NONLINEAR color space and otherwise returns
availableFormats[0]; indexing an empty std::vector is undefined behavior,
modelled here as `none`. -/
def chooseSwapSurfaceFormat (availableFormats : List SurfaceFormat) :
    Option SurfaceFormat :=
  match availableFormats.find? fun f =>
      f.format == VK_FORMAT_B8G8R8A8_SRGB &&
      f.colorSpace == VK_COLOR_SPACE_SRGB_NONLINEAR_KHR with
  | some f => some f
  | none => availableFormats[0]?

/-- VulkanSwapchain::chooseSwapPresentMode: prefers mailbox mode and falls
back to FIFO, which is guaranteed to exist.  An empty list of modes is not
an error for this function. -/
def chooseSwapPresentMode (availablePresentModes : List Nat) : Nat :=
  if availablePresentModes.contains VK_PRESENT_MODE_MAILBOX_KHR then
    VK_PRESENT_MODE_MAILBOX_KHR
  else
    VK_PRESENT_MODE_FIFO_KHR

/-- VulkanSwapchain::chooseSwapExtent: the surface's current extent when its
width is not the uint32 sentinel, else the window framebuffer size clamped
to the surface's min/max image extents. -/
def chooseSwapExtent (windowFramebuffer : Extent2D)
    (capabilities : SurfaceCapabilities) : Extent2D :=
  if capabilities.currentExtent.width ≠ UINT32_MAX then
    capabilities.currentExtent
  else
    { width := min (max windowFramebuffer.width capabilities.minImageExtent.width)
        capabilities.maxImageExtent.width
      height := min (max windowFramebuffer.height capabilities.minImageExtent.height)
        capabilities.maxImageExtent.height }

/-- Image count chosen in VulkanSwapchain::createSwapchain: minImageCount + 1,
capped by maxImageCount when that is nonzero. -/
def chooseImageCount (capabilities : SurfaceCapabilities) : Nat :=
  let imageCount := capabilities.minImageCount + 1
  if capabilities.maxImageCount > 0 ∧ imageCount > capabilities.maxImageCount then
    capabilities.maxImageCount
  else
    imageCount

/-- Configuration selected by VulkanSwapchain::createSwapchain. -/
structure SwapchainConfig where
  surfaceFormat : SurfaceFormat
  presentMode : Nat
  extent : Extent2D
  imageCount : Nat
deriving Repr, DecidableEq

/-- Outcome of a resource-creation step: success, a thrown
std::runtime_error with its message, or undefined behavior (such as
indexing an empty std::vector). -/
inductive CreateOutcome (α : Type) where
  | ok (value : α)
  | fatalError (msg : String)
  | undefinedBehavior
deriving Repr, DecidableEq

/-- Selection stage of VulkanSwapchain::createSwapchain: the support details
returned by querySwapchainSupport are consumed without any emptiness check;
an empty format list reaches availableFormats[0] (undefined behavior), while
an empty present-mode list silently selects FIFO and creation proceeds. -/
def createSwapchainConfig (support : SwapchainSupportDetails)
    (windowFramebuffer : Extent2D) : CreateOutcome SwapchainConfig :=
  match chooseSwapSurfaceFormat support.formats with
  | none => .undefinedBehavior
  | some surfaceFormat =>
    .ok { surfaceFormat := surfaceFormat
          presentMode := chooseSwapPresentMode support.presentModes
          extent := chooseSwapExtent windowFramebuffer support.capabilities
          imageCount := chooseImageCount support.capabilities }

/-- Swapchain-relevant view of a physical device, as queried by
VulkanInstance::isDeviceSuitable. -/
structure DeviceInfo where
  hasGraphicsAndPresentQueues : Bool
  extensionsSupported : Bool
  formats : List SurfaceFormat
  presentModes : List Nat
  samplerAnisotropy : Bool
deriving Repr, DecidableEq

/-- VulkanInstance::isDeviceSuitable: requires complete queue families, the
required extensions, a non-empty format list, a non-empty present-mode list
and anisotropic filtering support. -/
def isDeviceSuitable (d : DeviceInfo) : Bool :=
  d.hasGraphicsAndPresentQueues && d.extensionsSupported &&
    (!d.formats.isEmpty && !d.presentModes.isEmpty) && d.samplerAnisotropy

/-- VulkanInstance::pickPhysicalDevice: fails with a descriptive
std::runtime_error when no device is enumerated or none is suitable,
otherwise selects the first suitable device. -/
def pickPhysicalDevice (devices : List DeviceInfo) : Except String DeviceInfo :=
  if devices.isEmpty then
    .error "Failed to find GPUs with Vulkan support!"
  else
    match devices.find? isDeviceSuitable with
    | some d => .ok d
    | none => .error "Failed to find a suitable GPU!"

/-- Framebuffer as created by VulkanSwapchain::createFramebuffers: the list
of attached image-view handles plus the framebuffer extent. -/
structure Framebuffer where
  attachments : List Nat
  width : Nat
  height : Nat
deriving Repr, DecidableEq

/-- Attachment count of the render pass created by Renderer::createRenderPass
(one color attachment and one depth attachment). -/
def renderPassAttachmentCount : Nat := 2

/-- Depth image and view created by VulkanSwapchain::createDepthResources in
the src/unnamed/part_002 revision: a single image sized to the swapchain
extent, plus its view handle. -/
structure DepthResource where
  imageWidth : Nat
  imageHeight : Nat
  view : Nat
deriving Repr, DecidableEq

/-- VulkanSwapchain::createDepthResources (src/unnamed/part_002 lines
162-183): createImage is called with m_swapchainExtent.width and
m_swapchainExtent.height, and one view is built on the image. -/
def createDepthResources (swapchainExtent : Extent2D) (viewHandle : Nat) :
    DepthResource :=
  { imageWidth := swapchainExtent.width
    imageHeight := swapchainExtent.height
    view := viewHandle }

/-- VulkanSwapchain::createFramebuffers as implemented in the file
src/src/vulkan/swapchain.cpp (lines 173-198): each framebuffer receives a
single attachment, the image's color view, and no depth attachment. -/
def createFramebuffersColorOnly (imageViews : List Nat)
    (swapchainExtent : Extent2D) : List Framebuffer :=
  imageViews.map fun v =>
    { attachments := [v]
      width := swapchainExtent.width
      height := swapchainExtent.height }

/-- VulkanSwapchain::createFramebuffers as implemented in the revision
src/unnamed/part_002 (lines 293-320): each framebuffer receives the image's
color view together with the shared depth image view. -/
def createFramebuffersWithDepth (imageViews : List Nat)
    (depth : DepthResource) (swapchainExtent : Extent2D) : List Framebuffer :=
  imageViews.map fun v =>
    { attachments := [v, depth.view]
      width := swapchainExtent.width
      height := swapchainExtent.height }

/-- Presentation surface state built by the VulkanSwapchain constructor of
the src/unnamed/part_002 revision: createSwapchain, createImageViews (one
view per image), createDepthResources, createFramebuffers, in that order.
Image views are modelled as the handles 0, 1, ..., and the depth view as
the next free handle. -/
structure SwapchainState where
  imageCount : Nat
  extent : Extent2D
  imageViews : List Nat
  depth : DepthResource
  framebuffers : List Framebuffer
deriving Repr, DecidableEq

/-- VulkanSwapchain constructor chain (src/unnamed/part_002 lines 7-14),
given the image count and extent produced by createSwapchain. -/
def mkSwapchainState (imageCount : Nat) (extent : Extent2D) : SwapchainState :=
  let imageViews := List.range imageCount
  let depth := createDepthResources extent imageCount
  { imageCount := imageCount
    extent := extent
    imageViews := imageViews
    depth := depth
    framebuffers := createFramebuffersWithDepth imageViews depth extent }

/-! ## Renderer frame loop (src/src/vulkan/renderer.cpp) -/

/-- Vector of three floats (glm::vec3). -/
structure Vec3 where
  x : ℚ
  y : ℚ
  z : ℚ
deriving Repr, DecidableEq

/-- Matrix of 4 x 4 floats (glm::mat4), entry (row, column). -/
def Mat4 : Type := Fin 4 → Fin 4 → ℚ

/-- Identity matrix (glm::mat4(1.0f)). -/
def mat4Identity : Mat4 := fun i j => if i = j then 1 else 0

/-- Translation matrix glm::translate(glm::mat4(1.0f), p): the identity with
the translation vector in the fourth column. -/
def translateMat (p : Vec3) : Mat4 := fun i j =>
  if j = 3 then
    if i = 0 then p.x else if i = 1 then p.y else if i = 2 then p.z else 1
  else
    if i = j then 1 else 0

/-- Renderer::UniformBufferObject: model, view and projection matrices. -/
structure UniformBufferObject where
  model : Mat4
  view : Mat4
  proj : Mat4

/-- Result codes of vkAcquireNextImageKHR / vkQueuePresentKHR that the
renderer distinguishes. -/
inductive VkResult where
  | success
  | suboptimalKHR
  | errorOutOfDateKHR
  | otherError
deriving Repr, DecidableEq

/-- Command recorded into a frame slot's command buffer. -/
inductive Command where
  | beginRenderPass (imageIndex : Nat) (clearColor : List ℚ) (clearDepth : ℚ) (clearStencil : Nat)
  | bindEarthPipeline
  | bindSatellitePipeline
  | bindDescriptorSet (setIndex : Nat)
  | bindEarthBuffers
  | bindSatelliteVertexBuffer
  | drawIndexed (indexCount : Nat)
  | draw (vertexCount : Nat)
  | endRenderPass
deriving Repr, DecidableEq

/-- Observable host-side action of the frame loop, used to state ordering
properties.  `waitFence` records which slot was waited on and whether the
fence was signaled at that moment (a wait on an unsignaled fence would block
forever under the synchronous-GPU model). -/
inductive FrameEvent where
  | waitFence (slot : Nat) (observedSignaled : Bool)
  | acquireImage (slot : Nat) (result : VkResult) (imageIndex : Nat)
  | recreateSwapchain
  | resetFence (slot : Nat)
  | resetCommandBuffer (slot : Nat)
  | beginCommandBuffer (slot : Nat)
  | writeUniform (bufferIndex : Nat)
  | writeSatelliteVertex (p : Vec3)
  | submit (slot : Nat)
  | fenceSignaled (slot : Nat)
  | present (imageIndex : Nat) (result : VkResult)
  | advanceFrame (newSlot : Nat)
deriving Repr, DecidableEq

/-- Renderer state over the fields that the frame loop reads and writes.
Fences are booleans (true = signaled); uniform buffers are indexed by
presentable image (m_uniformBuffers has one entry per swapchain image);
command buffers are indexed by frame slot (m_commandBuffers has one entry
per frame in flight).  `swapchainGeneration` counts swapchain recreations. -/
structure RendererState where
  currentFrame : Nat
  currentImageIndex : Nat
  inFlightFences : List Bool
  semaphoreCount : Nat
  commandBuffers : List (List Command)
  uniformBuffers : List (Option UniformBufferObject)
  satelliteVertex : Option Vec3
  viewMatrix : Mat4
  projectionMatrix : Mat4
  earthIndexCount : Nat
  swapchainGeneration : Nat

/-- Initial renderer state after the Renderer constructor, for a swapchain
with `imageCount` presentable images: createCommandResources allocates 2
command buffers, createSyncObjects creates 2 fences in the signaled state
(VK_FENCE_CREATE_SIGNALED_BIT), createUniformBuffers sizes the uniform
buffer vector by the image count, and both index counters start at 0. -/
def initRendererState (imageCount : Nat) (view proj : Mat4) : RendererState :=
  { currentFrame := 0
    currentImageIndex := 0
    inFlightFences := [true, true]
    semaphoreCount := 2
    commandBuffers := [[], []]
    uniformBuffers := List.replicate imageCount none
    satelliteVertex := none
    viewMatrix := view
    projectionMatrix := proj
    earthIndexCount := (createEarthIndices 32 32).length
    swapchainGeneration := 0 }

/-- Clear color written in Renderer::beginFrame:
clearValues[0].color = (0.0f, 0.0f, 0.05f, 1.0f). -/
def clearColorValue : List ℚ := [0, 0, 1/20, 1]

/-- Depth clear value written in Renderer::beginFrame:
clearValues[1].depthStencil = (1.0f, 0). -/
def clearDepthValue : ℚ := 1

/-- Renderer::updateUniformBuffer: maps the uniform buffer at index
m_currentImageIndex, copies {earth model, view, projection} into it, and
unmaps it.  The time-dependent Earth rotation matrix is computed from the
wall clock, an external input, and is therefore a parameter. -/
def updateUniformBuffer (st : RendererState) (earthModel : Mat4) :
    RendererState :=
  { st with
    uniformBuffers := st.uniformBuffers.set st.currentImageIndex
      (some { model := earthModel
              view := st.viewMatrix
              proj := st.projectionMatrix }) }

/-- Appends a command to the command buffer of the slot `slot`. -/
def recordCommand (st : RendererState) (slot : Nat) (c : Command) :
    RendererState :=
  { st with
    commandBuffers := st.commandBuffers.set slot
      ((st.commandBuffers.getD slot []) ++ [c]) }

/-- Renderer::beginFrame (src/src/vulkan/renderer.cpp lines 112-166).
External driver responses are inputs: `acquireResult` is the VkResult of
vkAcquireNextImageKHR, `acquireImage` the image index it writes (the driver
writes the out-parameter on success and on VK_SUBOPTIMAL_KHR), and
`earthModel` the clock-derived rotation matrix used by updateUniformBuffer.
Returns whether rendering should proceed, the new state and the event
trace; a VkResult that is neither success nor a recreate signal throws. -/
def beginFrame (st : RendererState) (acquireResult : VkResult)
    (acquireImage : Nat) (earthModel : Mat4) :
    Except String (Bool × RendererState × List FrameEvent) := do
  let slot := st.currentFrame
  let waitEv := FrameEvent.waitFence slot (st.inFlightFences.getD slot false)
  let acqEv := FrameEvent.acquireImage slot acquireResult acquireImage
  match acquireResult with
  | .errorOutOfDateKHR =>
    let st := { st with swapchainGeneration := st.swapchainGeneration + 1 }
    return (false, st, [waitEv, acqEv, .recreateSwapchain])
  | .suboptimalKHR =>
    let st := { st with
      currentImageIndex := acquireImage
      swapchainGeneration := st.swapchainGeneration + 1 }
    return (false, st, [waitEv, acqEv, .recreateSwapchain])
  | .otherError => throw "Failed to acquire swapchain image!"
  | .success =>
    let st := { st with currentImageIndex := acquireImage }
    let st := { st with inFlightFences := st.inFlightFences.set slot false }
    let st := { st with commandBuffers := st.commandBuffers.set slot [] }
    let st := recordCommand st slot
      (.beginRenderPass acquireImage clearColorValue clearDepthValue 0)
    let st := updateUniformBuffer st earthModel
    return (true, st,
      [waitEv, acqEv, .resetFence slot, .resetCommandBuffer slot,
       .beginCommandBuffer slot, .writeUniform acquireImage])

/-- Renderer::drawEarth: binds the Earth pipeline, the descriptor set at
the acquired image index (m_descriptorSets[m_currentImageIndex]), the mesh
buffers, and issues an indexed draw over the full index count. -/
def drawEarth (st : RendererState) : RendererState :=
  let slot := st.currentFrame
  let st := recordCommand st slot .bindEarthPipeline
  let st := recordCommand st slot (.bindDescriptorSet st.currentImageIndex)
  let st := recordCommand st slot .bindEarthBuffers
  recordCommand st slot (.drawIndexed st.earthIndexCount)

/-- Renderer::drawSatellite (src/src/vulkan/renderer.cpp lines 304-379):
builds a translation-only model matrix from `position`, maps the uniform
buffer at m_currentImageIndex, copies {model, view, projection} into it and
unmaps it (overwriting the frame's earlier upload); binds the satellite
pipeline and the descriptor set at m_currentImageIndex; maps the single
dynamic vertex buffer, writes the one position vertex and unmaps it; binds
it and issues a one-vertex draw.  Returns the new state and the host-side
events of the two mapped writes. -/
def drawSatellite (st : RendererState) (position : Vec3) :
    RendererState × List FrameEvent :=
  let slot := st.currentFrame
  let satelliteModel := translateMat position
  let st := { st with
    uniformBuffers := st.uniformBuffers.set st.currentImageIndex
      (some { model := satelliteModel
              view := st.viewMatrix
              proj := st.projectionMatrix }) }
  let st := recordCommand st slot .bindSatellitePipeline
  let st := recordCommand st slot (.bindDescriptorSet st.currentImageIndex)
  let st := { st with satelliteVertex := some position }
  let st := recordCommand st slot .bindSatelliteVertexBuffer
  let st := recordCommand st slot (.draw 1)
  (st, [.writeUniform st.currentImageIndex, .writeSatelliteVertex position])

/-- Renderer::endFrame (src/src/vulkan/renderer.cpp lines 168-214) under the
fully synchronous GPU model of the spec's end-to-end scenario: queue
submission completes immediately, so the slot's fence is signaled at the
submit.  `presentResult` is the external VkResult of vkQueuePresentKHR.
The slot index advances modulo m_imageAvailableSemaphores.size(). -/
def endFrame (st : RendererState) (presentResult : VkResult) :
    Except String (RendererState × List FrameEvent) := do
  let slot := st.currentFrame
  let st := recordCommand st slot .endRenderPass
  let st := { st with inFlightFences := st.inFlightFences.set slot true }
  let evs := [FrameEvent.submit slot, .fenceSignaled slot,
    .present st.currentImageIndex presentResult]
  match presentResult with
  | .errorOutOfDateKHR | .suboptimalKHR =>
    let st := { st with
      swapchainGeneration := st.swapchainGeneration + 1
      currentFrame := (st.currentFrame + 1) % st.semaphoreCount }
    return (st, evs ++ [.recreateSwapchain, .advanceFrame st.currentFrame])
  | .otherError => throw "Failed to present swap chain image!"
  | .success =>
    let st := { st with
      currentFrame := (st.currentFrame + 1) % st.semaphoreCount }
    return (st, evs ++ [.advanceFrame st.currentFrame])

/-- Per-frame external inputs: the driver's acquire result and image index,
the present result, the clock-derived Earth model matrix and the satellite
position computed by the orbital-mechanics collaborator. -/
structure FrameInputs where
  acquireResult : VkResult
  acquireImage : Nat
  presentResult : VkResult
  earthModel : Mat4
  satellitePosition : Vec3

/-- One iteration of Application::update's render section: beginFrame; if
it reports that the frame is skipped, stop there; otherwise drawEarth,
drawSatellite and endFrame.  Returns the new state and the iteration's
event trace. -/
def runFrame (st : RendererState) (inp : FrameInputs) :
    Except String (RendererState × List FrameEvent) := do
  let (proceed, st, evs) ←
    beginFrame st inp.acquireResult inp.acquireImage inp.earthModel
  if proceed then
    let st := drawEarth st
    let (st, drawEvs) := drawSatellite st inp.satellitePosition
    let (st, endEvs) ← endFrame st inp.presentResult
    return (st, evs ++ drawEvs ++ endEvs)
  else
    return (st, evs)

/-- Runs the frame loop over a list of per-frame inputs, collecting one
event trace per iteration. -/
def runFrames (st : RendererState) :
    List FrameInputs → Except String (RendererState × List (List FrameEvent))
  | [] => return (st, [])
  | inp :: rest => do
    let (st1, evs) ← runFrame st inp
    let (stFinal, traces) ← runFrames st1 rest
    return (stFinal, evs :: traces)

/-! ## Resource lifecycle across swapchain recreation
(Renderer::recreateSwapchain, src/src/vulkan/renderer.cpp lines 216-265) -/

/-- Vulkan objects owned by the renderer, each identified by a handle; a
destroyed-and-rebuilt resource receives a fresh handle drawn from `nextId`,
while an object the recreation protocol leaves alone keeps its handle.
Extent-dependent resources also record the extent they were built against. -/
structure RendererResources where
  renderPass : Nat
  pipelineLayout : Nat
  earthPipeline : Nat
  satellitePipeline : Nat
  commandBuffers : Nat
  descriptorSetLayout : Nat
  descriptorPool : Nat
  descriptorSets : Nat
  uniformBuffers : Nat
  swapchain : Nat
  framebuffers : Nat
  depthResource : Nat
  extent : Extent2D
  framebufferExtent : Extent2D
  depthExtent : Extent2D
  projectionAspect : ℚ
  nextId : Nat
deriving Repr, DecidableEq

/-- Handle freshness invariant: every live handle was drawn from the supply,
so it is smaller than `nextId`. -/
def RendererResources.wellFormed (r : RendererResources) : Prop :=
  r.renderPass < r.nextId ∧ r.pipelineLayout < r.nextId ∧
  r.earthPipeline < r.nextId ∧ r.satellitePipeline < r.nextId ∧
  r.commandBuffers < r.nextId ∧ r.descriptorSetLayout < r.nextId ∧
  r.descriptorPool < r.nextId ∧ r.descriptorSets < r.nextId ∧
  r.uniformBuffers < r.nextId ∧ r.swapchain < r.nextId ∧
  r.framebuffers < r.nextId ∧ r.depthResource < r.nextId

instance (r : RendererResources) : Decidable r.wellFormed := by
  unfold RendererResources.wellFormed
  infer_instance

/-- Renderer state after the Renderer constructor, with handles assigned in
construction order: render pass, swapchain (images, views, depth,
framebuffers), descriptor resources, pipelines, uniform buffers, command
pool and buffers. -/
def createRendererResources (extent : Extent2D) : RendererResources :=
  { renderPass := 0
    swapchain := 1
    depthResource := 2
    framebuffers := 3
    descriptorSetLayout := 4
    descriptorPool := 5
    descriptorSets := 6
    pipelineLayout := 7
    earthPipeline := 8
    satellitePipeline := 9
    uniformBuffers := 10
    commandBuffers := 11
    extent := extent
    framebufferExtent := extent
    depthExtent := extent
    projectionAspect := (extent.width : ℚ) / (extent.height : ℚ)
    nextId := 12 }

/-- Renderer::recreateSwapchain: after the device idles, the descriptor pool
(with its sets) and the uniform buffers are destroyed, the swapchain is reset
(its destructor tears down framebuffers, depth resource, views and the
swapchain object) and rebuilt against the new extent, createDescriptorResources
and createUniformBuffers rebuild the per-image descriptor and uniform
resources, and the projection matrix's aspect ratio is recomputed.  The
command buffers, both pipelines, the pipeline layout and the render pass are
not touched. -/
def recreateSwapchain (r : RendererResources) (newExtent : Extent2D) :
    RendererResources :=
  let n := r.nextId
  { r with
    swapchain := n
    depthResource := n + 1
    framebuffers := n + 2
    descriptorSetLayout := n + 3
    descriptorPool := n + 4
    descriptorSets := n + 5
    uniformBuffers := n + 6
    extent := newExtent
    framebufferExtent := newExtent
    depthExtent := newExtent
    projectionAspect := (newExtent.width : ℚ) / (newExtent.height : ℚ)
    nextId := n + 7 }

/-! ## Trace observations and simulation runs -/

/-- Buffer indices targeted by the uniform-buffer writes of a trace, in
order (the beginFrame transform upload and the drawSatellite marker
write). -/
def uniformWriteTargets (t : List FrameEvent) : List Nat :=
  t.filterMap fun e =>
    match e with
    | .writeUniform i => some i
    | _ => none

/-- Frame-slot indices whose fence was waited on in a trace, in order. -/
def waitedSlots (t : List FrameEvent) : List Nat :=
  t.filterMap fun e =>
    match e with
    | .waitFence s _ => some s
    | _ => none

/-- For each fence wait of a trace, whether the fence was signaled at the
moment of the wait. -/
def fenceObservations (t : List FrameEvent) : List Bool :=
  t.filterMap fun e =>
    match e with
    | .waitFence _ b => some b
    | _ => none

/-- Slot values recorded by advanceFrame events of a trace. -/
def advancedSlots (t : List FrameEvent) : List Nat :=
  t.filterMap fun e =>
    match e with
    | .advanceFrame s => some s
    | _ => none

/-- Ordering property of one frame iteration's trace: every command-buffer
reset of a slot is preceded, earlier in the same trace, by a wait on that
slot's fence that observed the fence signaled. -/
def fenceWaitPrecedesReset (t : List FrameEvent) : Prop :=
  ∀ i : Fin t.length, ∀ s, t.get i = .resetCommandBuffer s →
    ∃ j : Fin t.length, j.val < i.val ∧ t.get j = .waitFence s true

/-- Steady-state frame inputs for a simulated run against `imageCount`
presentable images: every acquire and present succeeds and the driver hands
out image indices round-robin (frame k acquires image k mod imageCount). -/
def steadyFrameInputs (imageCount : Nat) (k : Nat) : FrameInputs :=
  { acquireResult := .success
    acquireImage := k % imageCount
    presentResult := .success
    earthModel := mat4Identity
    satellitePosition := { x := 0, y := 0, z := 0 } }

/-- Whether the simulated steady run of `frames` frames against
`imageCount` presentable images completes without a thrown error. -/
def simRunOk (imageCount frames : Nat) : Bool :=
  match runFrames (initRendererState imageCount mat4Identity mat4Identity)
      ((List.range frames).map (steadyFrameInputs imageCount)) with
  | .ok _ => true
  | .error _ => false

/-- Per-iteration event traces of the simulated steady run. -/
def simTraces (imageCount frames : Nat) : List (List FrameEvent) :=
  match runFrames (initRendererState imageCount mat4Identity mat4Identity)
      ((List.range frames).map (steadyFrameInputs imageCount)) with
  | .ok (_, traces) => traces
  | .error _ => []

/-! ## Theorems -/

theorem setEccentricity_nonneg (v : ℚ) : 0 ≤ setEccentricity v :=
  le_max_left 0 _

theorem setEccentricity_le (v : ℚ) : setEccentricity v ≤ 99/100 := by
  unfold setEccentricity
  exact max_le (by norm_num) (min_le_left _ _)

theorem eccentricityAfter_nonneg (calls : List ℚ) :
    0 ≤ eccentricityAfter calls := by
  unfold eccentricityAfter
  cases calls with
  | nil => norm_num [initialEccentricity]
  | cons c cs =>
    induction cs generalizing c with
    | nil => exact setEccentricity_nonneg c
    | cons d ds ih => exact ih d

theorem eccentricityAfter_le (calls : List ℚ) :
    eccentricityAfter calls ≤ 99/100 := by
  unfold eccentricityAfter
  cases calls with
  | nil => norm_num [initialEccentricity]
  | cons c cs =>
    induction cs generalizing c with
    | nil => exact setEccentricity_le c
    | cons d ds ih => exact ih d

theorem keplerDenominator_lower_bound (e c : ℚ) (he0 : 0 ≤ e)
    (he1 : e ≤ 99/100) (hc : |c| ≤ 1) :
    1/100 ≤ keplerDenominator e c := by
  unfold keplerDenominator
  rcases abs_le.mp hc with ⟨hcl, hcr⟩
  nlinarith

/-- C10: after any sequence of setEccentricity calls the stored eccentricity
lies in the interval from 0 to 0.99, so the Newton-Raphson denominator
1 - e * cos(E) in calculateEccentricAnomaly is at least 0.01 and in
particular never zero, for any value the cosine function can return. -/
theorem eccentricity_clamp_keeps_kepler_denominator_positive
    (calls : List ℚ) (cosf : ℚ → ℚ) (E : ℚ)
    (hcos : ∀ x, |cosf x| ≤ 1) :
    0 ≤ eccentricityAfter calls ∧ eccentricityAfter calls ≤ 99/100 ∧
    1/100 ≤ keplerDenominator (eccentricityAfter calls) (cosf E) ∧
    keplerDenominator (eccentricityAfter calls) (cosf E) ≠ 0 := by
  have h0 := eccentricityAfter_nonneg calls
  have h1 := eccentricityAfter_le calls
  have h2 := keplerDenominator_lower_bound _ _ h0 h1 (hcos E)
  exact ⟨h0, h1, h2, by linarith⟩

/-- Witness for C10 at the call sequence [2, -5, 0.995] with the constant
cosine function 1. -/
theorem eccentricity_clamp_witness :
    0 ≤ eccentricityAfter [2, -5, 995/1000] ∧
    eccentricityAfter [2, -5, 995/1000] ≤ 99/100 ∧
    1/100 ≤ keplerDenominator (eccentricityAfter [2, -5, 995/1000])
      ((fun _ => (1 : ℚ)) 0) ∧
    keplerDenominator (eccentricityAfter [2, -5, 995/1000])
      ((fun _ => (1 : ℚ)) 0) ≠ 0 :=
  eccentricity_clamp_keeps_kepler_denominator_positive [2, -5, 995/1000]
    (fun _ => 1) 0 (fun x => by norm_num)

theorem createEarthVertices_length (cosf sinf : ℚ → ℚ) (piq : ℚ)
    (numStacks numSlices : Nat) (radius : ℚ) :
    (createEarthVertices cosf sinf piq numStacks numSlices radius).length =
      (numStacks + 1) * (numSlices + 1) := by
  simp only [createEarthVertices, List.length_flatMap, Function.comp_def,
    List.length_map, List.length_range, List.map_const', List.sum_replicate,
    smul_eq_mul]

theorem createEarthIndices_length (numStacks numSlices : Nat) :
    (createEarthIndices numStacks numSlices).length =
      6 * numStacks * numSlices := by
  simp only [createEarthIndices, List.length_flatMap, Function.comp_def,
    List.length_cons, List.length_nil, List.map_const', List.length_range,
    List.sum_replicate, smul_eq_mul]
  ring

theorem createEarthIndices_bound (numStacks numSlices : Nat) (i : Nat)
    (h : i ∈ createEarthIndices numStacks numSlices) :
    i < (numStacks + 1) * (numSlices + 1) := by
  simp only [createEarthIndices, List.mem_flatMap, List.mem_range] at h
  obtain ⟨stack, hstack, slice, hslice, hmem⟩ := h
  have hBA : (stack + 1) * (numSlices + 1) =
      stack * (numSlices + 1) + (numSlices + 1) := by ring
  have hDC : (numStacks + 1) * (numSlices + 1) =
      numStacks * (numSlices + 1) + (numSlices + 1) := by ring
  have hBC : (stack + 1) * (numSlices + 1) ≤ numStacks * (numSlices + 1) :=
    Nat.mul_le_mul_right _ hstack
  simp only [List.mem_cons, List.not_mem_nil, or_false] at hmem
  rcases hmem with h | h | h | h | h | h <;> omega

/-- C6: for stacks = 32 and slices = 32 the Earth sphere generator produces
exactly 33 * 33 = 1089 (position, normal) vertices and 6144 indices (that
is, 2 * 32 * 32 = 2048 triangles), and every emitted index is strictly
below 1089, whatever the radius and whatever values the trigonometric
functions return. -/
theorem earth_mesh_counts_and_index_bound (cosf sinf : ℚ → ℚ) (piq : ℚ)
    (radius : ℚ) :
    (createEarthVertices cosf sinf piq 32 32 radius).length = 1089 ∧
    (createEarthIndices 32 32).length = 6144 ∧
    (createEarthIndices 32 32).length = 3 * 2048 ∧
    ∀ i ∈ createEarthIndices 32 32, i < 1089 := by
  refine ⟨?_, ?_, ?_, ?_⟩
  · rw [createEarthVertices_length]
  · rw [createEarthIndices_length]
  · rw [createEarthIndices_length]
  · intro i hi
    have := createEarthIndices_bound 32 32 i hi
    omega

/-- C4 counterexample: swapchain creation does not fail fatally on empty
support lists.  With one supported format and zero present modes the
selection stage proceeds and silently picks FIFO; with zero formats it runs
into undefined behavior (availableFormats[0] on an empty std::vector), not
a descriptive fatal error. -/
theorem swapchain_creation_no_zero_support_check :
    createSwapchainConfig
      { capabilities :=
          { minImageCount := 1, maxImageCount := 3
            currentExtent := { width := 800, height := 600 }
            minImageExtent := { width := 1, height := 1 }
            maxImageExtent := { width := 4096, height := 4096 } }
        formats := [{ format := 50, colorSpace := 0 }]
        presentModes := [] }
      { width := 800, height := 600 } =
      .ok { surfaceFormat := { format := 50, colorSpace := 0 }
            presentMode := VK_PRESENT_MODE_FIFO_KHR
            extent := { width := 800, height := 600 }
            imageCount := 2 } ∧
    createSwapchainConfig
      { capabilities :=
          { minImageCount := 1, maxImageCount := 3
            currentExtent := { width := 800, height := 600 }
            minImageExtent := { width := 1, height := 1 }
            maxImageExtent := { width := 4096, height := 4096 } }
        formats := []
        presentModes := [VK_PRESENT_MODE_FIFO_KHR] }
      { width := 800, height := 600 } = .undefinedBehavior := by
  constructor <;> rfl

/-- C4 amended: the zero-formats / zero-present-modes check lives in device
selection, not in swapchain creation.  isDeviceSuitable rejects every device
whose format or present-mode list is empty, so pickPhysicalDevice fails with
the descriptive error "Failed to find a suitable GPU!" when only such
devices exist; when at least one format is supported the selected color
format is 8-bit sRGB when offered and otherwise the first supported format,
and the selected present mode is mailbox when offered and otherwise FIFO. -/
theorem device_selection_rejects_empty_support
    (devices : List DeviceInfo) (formats : List SurfaceFormat)
    (modes : List Nat)
    (hdev : devices ≠ [])
    (hbad : ∀ d ∈ devices, d.formats = [] ∨ d.presentModes = [])
    (hfmt : formats ≠ []) :
    pickPhysicalDevice devices = .error "Failed to find a suitable GPU!" ∧
    ((∃ f ∈ formats, f.format = VK_FORMAT_B8G8R8A8_SRGB ∧
        f.colorSpace = VK_COLOR_SPACE_SRGB_NONLINEAR_KHR) →
      ∃ f, chooseSwapSurfaceFormat formats = some f ∧ f ∈ formats ∧
        f.format = VK_FORMAT_B8G8R8A8_SRGB ∧
        f.colorSpace = VK_COLOR_SPACE_SRGB_NONLINEAR_KHR) ∧
    ((∀ f ∈ formats, ¬(f.format = VK_FORMAT_B8G8R8A8_SRGB ∧
        f.colorSpace = VK_COLOR_SPACE_SRGB_NONLINEAR_KHR)) →
      chooseSwapSurfaceFormat formats = formats.head? ) ∧
    (VK_PRESENT_MODE_MAILBOX_KHR ∈ modes →
      chooseSwapPresentMode modes = VK_PRESENT_MODE_MAILBOX_KHR) ∧
    (VK_PRESENT_MODE_MAILBOX_KHR ∉ modes →
      chooseSwapPresentMode modes = VK_PRESENT_MODE_FIFO_KHR) := by
  refine ⟨?_, ?_, ?_, ?_, ?_⟩
  · unfold pickPhysicalDevice
    rw [if_neg (by simpa using hdev)]
    have hfind : devices.find? isDeviceSuitable = none := by
      rw [List.find?_eq_none]
      intro d hd
      rcases hbad d hd with h | h <;>
        simp [isDeviceSuitable, h, List.isEmpty_iff]
    rw [hfind]
  · rintro ⟨f, hf, hfmt50, hcs⟩
    unfold chooseSwapSurfaceFormat
    have hex : ∃ g ∈ formats, (fun g : SurfaceFormat =>
        g.format == VK_FORMAT_B8G8R8A8_SRGB &&
        g.colorSpace == VK_COLOR_SPACE_SRGB_NONLINEAR_KHR) g = true := by
      exact ⟨f, hf, by simp [hfmt50, hcs]⟩
    rcases List.find?_isSome.mpr hex with hsome
    rcases Option.isSome_iff_exists.mp hsome with ⟨g, hg⟩
    rw [hg]
    have hmem := List.mem_of_find?_eq_some hg
    have hprop := List.find?_some hg
    simp only [Bool.and_eq_true, beq_iff_eq] at hprop
    exact ⟨g, rfl, hmem, hprop.1, hprop.2⟩
  · intro hnone
    unfold chooseSwapSurfaceFormat
    have hfind : formats.find? (fun g : SurfaceFormat =>
        g.format == VK_FORMAT_B8G8R8A8_SRGB &&
        g.colorSpace == VK_COLOR_SPACE_SRGB_NONLINEAR_KHR) = none := by
      rw [List.find?_eq_none]
      intro g hg
      have := hnone g hg
      simp only [Bool.and_eq_true, beq_iff_eq]
      tauto
    rw [hfind]
    cases formats with
    | nil => exact absurd rfl hfmt
    | cons a l => simp
  · intro h
    simp [chooseSwapPresentMode, h]
  · intro h
    simp [chooseSwapPresentMode, h]

/-- Witness for C4 amended: one device offering no present modes, a format
list without the preferred sRGB entry, and a mode list without mailbox. -/
theorem device_selection_rejects_empty_support_witness :
    pickPhysicalDevice
      [{ hasGraphicsAndPresentQueues := true, extensionsSupported := true
         formats := [{ format := 44, colorSpace := 0 }], presentModes := []
         samplerAnisotropy := true }] =
      .error "Failed to find a suitable GPU!" ∧
    ((∃ f ∈ [({ format := 44, colorSpace := 7 } : SurfaceFormat)],
        f.format = VK_FORMAT_B8G8R8A8_SRGB ∧
        f.colorSpace = VK_COLOR_SPACE_SRGB_NONLINEAR_KHR) →
      ∃ f, chooseSwapSurfaceFormat [{ format := 44, colorSpace := 7 }] = some f ∧
        f ∈ [({ format := 44, colorSpace := 7 } : SurfaceFormat)] ∧
        f.format = VK_FORMAT_B8G8R8A8_SRGB ∧
        f.colorSpace = VK_COLOR_SPACE_SRGB_NONLINEAR_KHR) ∧
    ((∀ f ∈ [({ format := 44, colorSpace := 7 } : SurfaceFormat)],
        ¬(f.format = VK_FORMAT_B8G8R8A8_SRGB ∧
          f.colorSpace = VK_COLOR_SPACE_SRGB_NONLINEAR_KHR)) →
      chooseSwapSurfaceFormat [{ format := 44, colorSpace := 7 }] =
        [({ format := 44, colorSpace := 7 } : SurfaceFormat)].head? ) ∧
    (VK_PRESENT_MODE_MAILBOX_KHR ∈ [VK_PRESENT_MODE_FIFO_KHR] →
      chooseSwapPresentMode [VK_PRESENT_MODE_FIFO_KHR] =
        VK_PRESENT_MODE_MAILBOX_KHR) ∧
    (VK_PRESENT_MODE_MAILBOX_KHR ∉ [VK_PRESENT_MODE_FIFO_KHR] →
      chooseSwapPresentMode [VK_PRESENT_MODE_FIFO_KHR] =
        VK_PRESENT_MODE_FIFO_KHR) :=
  device_selection_rejects_empty_support
    [{ hasGraphicsAndPresentQueues := true, extensionsSupported := true
       formats := [{ format := 44, colorSpace := 0 }], presentModes := []
       samplerAnisotropy := true }]
    [{ format := 44, colorSpace := 7 }] [VK_PRESENT_MODE_FIFO_KHR]
    (by decide) (by decide) (by decide)

/-- C5: the file src/src/vulkan/swapchain.cpp builds each framebuffer with a
single attachment (the image's color view) and creates no depth resource at
all, although the render pass of Renderer::createRenderPass declares two
attachments; the revision src/unnamed/part_002, which matches the class
declaration in swapchain.h, builds each framebuffer from the image's color
view paired with the single shared depth view, the depth image being sized
to the presentable extent.  Evaluated here for a 2-image swapchain at
extent 800 x 600 (image views 0 and 1, depth view 2). -/
theorem framebuffer_depth_attachment_divergence :
    (∀ fb ∈ createFramebuffersColorOnly [0, 1] { width := 800, height := 600 },
      fb.attachments.length = 1) ∧
    renderPassAttachmentCount = 2 ∧
    (mkSwapchainState 2 { width := 800, height := 600 }).framebuffers =
      [{ attachments := [0, 2], width := 800, height := 600 },
       { attachments := [1, 2], width := 800, height := 600 }] ∧
    (mkSwapchainState 2 { width := 800, height := 600 }).depth =
      { imageWidth := 800, imageHeight := 600, view := 2 } ∧
    ∀ fb ∈ (mkSwapchainState 2 { width := 800, height := 600 }).framebuffers,
      fb.attachments.length = renderPassAttachmentCount ∧
      fb.attachments.getLast? =
        some (mkSwapchainState 2 { width := 800, height := 600 }).depth.view := by
  refine ⟨by decide, rfl, by decide, by decide, by decide⟩

/-- C7: one run of the swapchain-recreation protocol leaves the frame-slot
command buffers, both graphics pipelines, the pipeline layout and the render
pass untouched (the same handles survive), while the swapchain, the
framebuffers, the depth resource, the descriptor pool with its per-image
descriptor sets and the per-image uniform buffers are destroyed and rebuilt
with fresh handles against the new extent. -/
theorem recreate_swapchain_resource_survival
    (r : RendererResources) (newExtent : Extent2D) (h : r.wellFormed) :
    (recreateSwapchain r newExtent).commandBuffers = r.commandBuffers ∧
    (recreateSwapchain r newExtent).earthPipeline = r.earthPipeline ∧
    (recreateSwapchain r newExtent).satellitePipeline = r.satellitePipeline ∧
    (recreateSwapchain r newExtent).pipelineLayout = r.pipelineLayout ∧
    (recreateSwapchain r newExtent).renderPass = r.renderPass ∧
    (recreateSwapchain r newExtent).swapchain ≠ r.swapchain ∧
    (recreateSwapchain r newExtent).framebuffers ≠ r.framebuffers ∧
    (recreateSwapchain r newExtent).depthResource ≠ r.depthResource ∧
    (recreateSwapchain r newExtent).descriptorPool ≠ r.descriptorPool ∧
    (recreateSwapchain r newExtent).descriptorSets ≠ r.descriptorSets ∧
    (recreateSwapchain r newExtent).uniformBuffers ≠ r.uniformBuffers ∧
    (recreateSwapchain r newExtent).extent = newExtent ∧
    (recreateSwapchain r newExtent).framebufferExtent = newExtent ∧
    (recreateSwapchain r newExtent).depthExtent = newExtent ∧
    (recreateSwapchain r newExtent).projectionAspect =
      (newExtent.width : ℚ) / (newExtent.height : ℚ) := by
  obtain ⟨h1, h2, h3, h4, h5, h6, h7, h8, h9, h10, h11, h12⟩ := h
  refine ⟨rfl, rfl, rfl, rfl, rfl, ?_, ?_, ?_, ?_, ?_, ?_, rfl, rfl, rfl, rfl⟩ <;>
    simp only [recreateSwapchain] <;> omega

/-- Witness for C7 at the freshly constructed renderer resources for extent
800 x 600, recreated at extent 1024 x 768. -/
theorem recreate_swapchain_resource_survival_witness :
    (recreateSwapchain (createRendererResources { width := 800, height := 600 })
        { width := 1024, height := 768 }).commandBuffers =
      (createRendererResources { width := 800, height := 600 }).commandBuffers ∧
    (recreateSwapchain (createRendererResources { width := 800, height := 600 })
        { width := 1024, height := 768 }).earthPipeline =
      (createRendererResources { width := 800, height := 600 }).earthPipeline ∧
    (recreateSwapchain (createRendererResources { width := 800, height := 600 })
        { width := 1024, height := 768 }).satellitePipeline =
      (createRendererResources { width := 800, height := 600 }).satellitePipeline ∧
    (recreateSwapchain (createRendererResources { width := 800, height := 600 })
        { width := 1024, height := 768 }).pipelineLayout =
      (createRendererResources { width := 800, height := 600 }).pipelineLayout ∧
    (recreateSwapchain (createRendererResources { width := 800, height := 600 })
        { width := 1024, height := 768 }).renderPass =
      (createRendererResources { width := 800, height := 600 }).renderPass ∧
    (recreateSwapchain (createRendererResources { width := 800, height := 600 })
        { width := 1024, height := 768 }).swapchain ≠
      (createRendererResources { width := 800, height := 600 }).swapchain ∧
    (recreateSwapchain (createRendererResources { width := 800, height := 600 })
        { width := 1024, height := 768 }).framebuffers ≠
      (createRendererResources { width := 800, height := 600 }).framebuffers ∧
    (recreateSwapchain (createRendererResources { width := 800, height := 600 })
        { width := 1024, height := 768 }).depthResource ≠
      (createRendererResources { width := 800, height := 600 }).depthResource ∧
    (recreateSwapchain (createRendererResources { width := 800, height := 600 })
        { width := 1024, height := 768 }).descriptorPool ≠
      (createRendererResources { width := 800, height := 600 }).descriptorPool ∧
    (recreateSwapchain (createRendererResources { width := 800, height := 600 })
        { width := 1024, height := 768 }).descriptorSets ≠
      (createRendererResources { width := 800, height := 600 }).descriptorSets ∧
    (recreateSwapchain (createRendererResources { width := 800, height := 600 })
        { width := 1024, height := 768 }).uniformBuffers ≠
      (createRendererResources { width := 800, height := 600 }).uniformBuffers ∧
    (recreateSwapchain (createRendererResources { width := 800, height := 600 })
        { width := 1024, height := 768 }).extent = { width := 1024, height := 768 } ∧
    (recreateSwapchain (createRendererResources { width := 800, height := 600 })
        { width := 1024, height := 768 }).framebufferExtent =
      { width := 1024, height := 768 } ∧
    (recreateSwapchain (createRendererResources { width := 800, height := 600 })
        { width := 1024, height := 768 }).depthExtent =
      { width := 1024, height := 768 } ∧
    (recreateSwapchain (createRendererResources { width := 800, height := 600 })
        { width := 1024, height := 768 }).projectionAspect =
      ((1024 : Nat) : ℚ) / ((768 : Nat) : ℚ) :=
  recreate_swapchain_resource_survival
    (createRendererResources { width := 800, height := 600 })
    { width := 1024, height := 768 } (by decide)

/-- C1 counterexample: on a stale acquire result (VK_SUBOPTIMAL_KHR) the
source's beginFrame does not proceed as for VK_SUCCESS; it triggers
swapchain recreation and skips the frame, leaving the slot fence signaled
(unconsumed) and the command buffer untouched, exactly as for
VK_ERROR_OUT_OF_DATE_KHR.  Evaluated at the freshly initialized 2-image
renderer state. -/
theorem stale_acquire_skips_frame_counterexample :
    beginFrame (initRendererState 2 mat4Identity mat4Identity)
        .suboptimalKHR 0 mat4Identity =
      .ok (false,
        { initRendererState 2 mat4Identity mat4Identity with
            swapchainGeneration := 1 },
        [.waitFence 0 true, .acquireImage 0 .suboptimalKHR 0,
         .recreateSwapchain]) ∧
    ({ initRendererState 2 mat4Identity mat4Identity with
        swapchainGeneration := 1 }).inFlightFences = [true, true] ∧
    ({ initRendererState 2 mat4Identity mat4Identity with
        swapchainGeneration := 1 }).commandBuffers = [[], []] :=
  ⟨rfl, rfl, rfl⟩

/-- C1 amended: both a stale (VK_SUBOPTIMAL_KHR) and an invalid
(VK_ERROR_OUT_OF_DATE_KHR) acquire result trigger the recreation protocol
with the frame skipped and the slot fence left unconsumed; only an ok
(VK_SUCCESS) result resets the slot fence to unsignaled, resets the slot's
command buffer, opens command recording and the render pass on the acquired
image's framebuffer with the two clear values, writes the transform state
into the uniform buffer slot of the acquired image index, and reports that
rendering should proceed. -/
theorem stale_and_invalid_both_skip_frame (st : RendererState) (img : Nat)
    (em : Mat4) (hslot : st.currentFrame < st.commandBuffers.length) :
    beginFrame st .suboptimalKHR img em =
      .ok (false,
        { st with currentImageIndex := img
                  swapchainGeneration := st.swapchainGeneration + 1 },
        [.waitFence st.currentFrame
           (st.inFlightFences.getD st.currentFrame false),
         .acquireImage st.currentFrame .suboptimalKHR img,
         .recreateSwapchain]) ∧
    beginFrame st .errorOutOfDateKHR img em =
      .ok (false,
        { st with swapchainGeneration := st.swapchainGeneration + 1 },
        [.waitFence st.currentFrame
           (st.inFlightFences.getD st.currentFrame false),
         .acquireImage st.currentFrame .errorOutOfDateKHR img,
         .recreateSwapchain]) ∧
    (∃ st2, beginFrame st .success img em =
      .ok (true, st2,
        [.waitFence st.currentFrame
           (st.inFlightFences.getD st.currentFrame false),
         .acquireImage st.currentFrame .success img,
         .resetFence st.currentFrame, .resetCommandBuffer st.currentFrame,
         .beginCommandBuffer st.currentFrame, .writeUniform img]) ∧
      st2.inFlightFences = st.inFlightFences.set st.currentFrame false ∧
      st2.commandBuffers.getD st.currentFrame [] =
        [Command.beginRenderPass img clearColorValue clearDepthValue 0] ∧
      st2.uniformBuffers = st.uniformBuffers.set img
        (some { model := em, view := st.viewMatrix
                proj := st.projectionMatrix }) ∧
      st2.swapchainGeneration = st.swapchainGeneration) := by
  refine ⟨rfl, rfl, ?_⟩
  refine ⟨_, rfl, rfl, ?_, rfl, rfl⟩
  simp [beginFrame, recordCommand, updateUniformBuffer, List.length_set,
    List.getD_eq_getElem?_getD, List.getElem?_set_self, hslot]

/-- Witness for C1 amended at the freshly initialized 2-image renderer
state with acquired image 1. -/
theorem stale_and_invalid_both_skip_frame_witness :
    beginFrame (initRendererState 2 mat4Identity mat4Identity)
        .suboptimalKHR 1 mat4Identity =
      .ok (false,
        { initRendererState 2 mat4Identity mat4Identity with
            currentImageIndex := 1
            swapchainGeneration :=
              (initRendererState 2 mat4Identity mat4Identity).swapchainGeneration + 1 },
        [.waitFence (initRendererState 2 mat4Identity mat4Identity).currentFrame
           ((initRendererState 2 mat4Identity mat4Identity).inFlightFences.getD
             (initRendererState 2 mat4Identity mat4Identity).currentFrame false),
         .acquireImage (initRendererState 2 mat4Identity mat4Identity).currentFrame
           .suboptimalKHR 1,
         .recreateSwapchain]) ∧
    beginFrame (initRendererState 2 mat4Identity mat4Identity)
        .errorOutOfDateKHR 1 mat4Identity =
      .ok (false,
        { initRendererState 2 mat4Identity mat4Identity with
            swapchainGeneration :=
              (initRendererState 2 mat4Identity mat4Identity).swapchainGeneration + 1 },
        [.waitFence (initRendererState 2 mat4Identity mat4Identity).currentFrame
           ((initRendererState 2 mat4Identity mat4Identity).inFlightFences.getD
             (initRendererState 2 mat4Identity mat4Identity).currentFrame false),
         .acquireImage (initRendererState 2 mat4Identity mat4Identity).currentFrame
           .errorOutOfDateKHR 1,
         .recreateSwapchain]) ∧
    (∃ st2, beginFrame (initRendererState 2 mat4Identity mat4Identity)
        .success 1 mat4Identity =
      .ok (true, st2,
        [.waitFence (initRendererState 2 mat4Identity mat4Identity).currentFrame
           ((initRendererState 2 mat4Identity mat4Identity).inFlightFences.getD
             (initRendererState 2 mat4Identity mat4Identity).currentFrame false),
         .acquireImage (initRendererState 2 mat4Identity mat4Identity).currentFrame
           .success 1,
         .resetFence (initRendererState 2 mat4Identity mat4Identity).currentFrame,
         .resetCommandBuffer (initRendererState 2 mat4Identity mat4Identity).currentFrame,
         .beginCommandBuffer (initRendererState 2 mat4Identity mat4Identity).currentFrame,
         .writeUniform 1]) ∧
      st2.inFlightFences =
        (initRendererState 2 mat4Identity mat4Identity).inFlightFences.set
          (initRendererState 2 mat4Identity mat4Identity).currentFrame false ∧
      st2.commandBuffers.getD
          (initRendererState 2 mat4Identity mat4Identity).currentFrame [] =
        [Command.beginRenderPass 1 clearColorValue clearDepthValue 0] ∧
      st2.uniformBuffers =
        (initRendererState 2 mat4Identity mat4Identity).uniformBuffers.set 1
          (some { model := mat4Identity
                  view := (initRendererState 2 mat4Identity mat4Identity).viewMatrix
                  proj := (initRendererState 2 mat4Identity mat4Identity).projectionMatrix }) ∧
      st2.swapchainGeneration =
        (initRendererState 2 mat4Identity mat4Identity).swapchainGeneration) :=
  stale_and_invalid_both_skip_frame
    (initRendererState 2 mat4Identity mat4Identity) 1 mat4Identity
    (by simp [initRendererState])

/-- C2: in the simulated steady run with 3 presentable images and 2 frame
slots over 10 frames, every uniform-buffer write of frame k (the beginFrame
transform upload and the drawSatellite marker write) targets the buffer
slot of the acquired image index k mod 3, while the active frame slot is
k mod 2; the two indices differ in some frames, so the writes track the
acquired image index and never the frame-slot index. -/
theorem uniform_writes_target_acquired_image_index :
    simRunOk 3 10 = true ∧
    (simTraces 3 10).length = 10 ∧
    (∀ k < 10, uniformWriteTargets ((simTraces 3 10).getD k []) =
      [k % 3, k % 3]) ∧
    (∀ k < 10, waitedSlots ((simTraces 3 10).getD k []) = [k % 2]) ∧
    (∃ k, k < 10 ∧ k % 3 ≠ k % 2) := by
  refine ⟨by decide, by decide, by decide, by decide, ⟨2, by decide, by decide⟩⟩

/-- C8: the simulated 2-image, 2-slot steady run over 5 frames observes the
frame-slot cycle 0, 1, 0, 1, 0 at the successive beginFrame calls, every
fence wait (the first included, because createSyncObjects creates the
fences signaled) observes a previously signaled fence under the fully
synchronous GPU model, and endFrame advances the slot index modulo the
slot count. -/
theorem five_frame_slot_cycle_no_deadlock :
    simRunOk 2 5 = true ∧
    (simTraces 2 5).length = 5 ∧
    (∀ k < 5, waitedSlots ((simTraces 2 5).getD k []) = [k % 2]) ∧
    (∀ k < 5, fenceObservations ((simTraces 2 5).getD k []) = [true]) ∧
    (∀ k < 5, advancedSlots ((simTraces 2 5).getD k []) = [(k + 1) % 2]) ∧
    (initRendererState 2 mat4Identity mat4Identity).inFlightFences =
      [true, true] ∧
    (∀ st : RendererState,
      (endFrame st .success).toOption.map (fun x => x.1.currentFrame) =
        some ((st.currentFrame + 1) % st.semaphoreCount)) := by
  refine ⟨by decide, by decide, by decide, by decide, by decide, rfl, ?_⟩
  intro st
  simp [endFrame, recordCommand, Except.toOption, pure, Except.pure]

theorem steady_trace_fenceWaitPrecedesReset (slot img : Nat) (p : Vec3) :
    fenceWaitPrecedesReset
      [.waitFence slot true, .acquireImage slot .success img,
       .resetFence slot, .resetCommandBuffer slot, .beginCommandBuffer slot,
       .writeUniform img, .writeUniform img, .writeSatelliteVertex p,
       .submit slot, .fenceSignaled slot, .present img .success,
       .advanceFrame ((slot + 1) % 2)] := by
  intro i s h
  fin_cases i <;> simp only [List.get] at h <;>
    first
    | (injection h with h1
       exact ⟨⟨0, by norm_num⟩, by norm_num, by subst h1; rfl⟩)
    | exact absurd h (by simp)

theorem runFrame_steady (st : RendererState) (inp : FrameInputs)
    (hf : st.inFlightFences = [true, true]) (hs : st.semaphoreCount = 2)
    (hc : st.currentFrame < 2)
    (ha : inp.acquireResult = .success) (hp : inp.presentResult = .success) :
    ∃ st2 tr, runFrame st inp = .ok (st2, tr) ∧
      fenceWaitPrecedesReset tr ∧
      st2.inFlightFences = [true, true] ∧ st2.semaphoreCount = 2 ∧
      st2.currentFrame < 2 := by
  obtain ⟨cf, cii, fences, semc, cbs, ubs, sv, vm, pm, eic, gen⟩ := st
  obtain ⟨ar, ai, pr, em, sp⟩ := inp
  subst hf hs ha hp
  interval_cases cf
  · exact ⟨_, _, rfl, steady_trace_fenceWaitPrecedesReset 0 ai sp,
      rfl, rfl, show (0 + 1) % 2 < 2 by norm_num⟩
  · exact ⟨_, _, rfl, steady_trace_fenceWaitPrecedesReset 1 ai sp,
      rfl, rfl, show (1 + 1) % 2 < 2 by norm_num⟩

theorem runFrames_steady (inputs : List FrameInputs) (st : RendererState)
    (hf : st.inFlightFences = [true, true]) (hs : st.semaphoreCount = 2)
    (hc : st.currentFrame < 2)
    (hall : ∀ inp ∈ inputs,
      inp.acquireResult = .success ∧ inp.presentResult = .success) :
    ∃ stF traces, runFrames st inputs = .ok (stF, traces) ∧
      traces.length = inputs.length ∧
      ∀ t ∈ traces, fenceWaitPrecedesReset t := by
  induction inputs generalizing st with
  | nil => exact ⟨st, [], rfl, rfl, by simp⟩
  | cons inp rest ih =>
    obtain ⟨ha, hp⟩ := hall inp (List.mem_cons_self inp rest)
    obtain ⟨st2, tr, hrun, htr, hf2, hs2, hc2⟩ :=
      runFrame_steady st inp hf hs hc ha hp
    obtain ⟨stF, traces, hrest, hlen, hprop⟩ :=
      ih st2 hf2 hs2 hc2 (fun i hi => hall i (List.mem_cons_of_mem inp hi))
    refine ⟨stF, tr :: traces, ?_, by simp [hlen], ?_⟩
    · simp only [runFrames, hrun, hrest, bind, Except.bind, pure, Except.pure]
    · intro t ht
      rcases List.mem_cons.mp ht with h | h
      · subst h
        exact htr
      · exact hprop t h

/-- C3: over any run of N successful frame iterations with N greater than
the slot count (2), a frame slot's command buffer is never reset before a
wait on that slot's fence has observed it signaled: in every iteration's
trace the fence wait on the current slot precedes the command-buffer reset
of that slot. -/
theorem fence_wait_precedes_command_buffer_reset
    (inputs : List FrameInputs) (st : RendererState)
    (hf : st.inFlightFences = [true, true]) (hs : st.semaphoreCount = 2)
    (hc : st.currentFrame < 2)
    (hall : ∀ inp ∈ inputs,
      inp.acquireResult = .success ∧ inp.presentResult = .success)
    (hN : 2 < inputs.length) :
    ∃ stF traces, runFrames st inputs = .ok (stF, traces) ∧
      2 < traces.length ∧
      ∀ t ∈ traces, fenceWaitPrecedesReset t := by
  obtain ⟨stF, traces, hrun, hlen, hprop⟩ :=
    runFrames_steady inputs st hf hs hc hall
  exact ⟨stF, traces, hrun, by omega, hprop⟩

/-- Witness for C3 at the freshly initialized 2-image renderer state and a
5-frame steady input sequence. -/
theorem fence_wait_precedes_command_buffer_reset_witness :
    ∃ stF traces,
      runFrames (initRendererState 2 mat4Identity mat4Identity)
        ((List.range 5).map (steadyFrameInputs 2)) = .ok (stF, traces) ∧
      2 < traces.length ∧
      ∀ t ∈ traces, fenceWaitPrecedesReset t :=
  fence_wait_precedes_command_buffer_reset
    ((List.range 5).map (steadyFrameInputs 2))
    (initRendererState 2 mat4Identity mat4Identity)
    rfl rfl (show 0 < 2 by norm_num) (by decide) (by decide)

/-- C9: within an open frame, drawSatellite(position) writes the uniform
buffer slot of the acquired image index with the translation-only model
matrix built from the position together with the current view and
projection matrices, overwriting the transform that updateUniformBuffer
uploaded earlier in the same frame; it rewrites the single dynamic vertex
buffer's one vertex with the position through a mapped host-visible write
that is immediately unmapped, and appends a one-vertex point draw with the
satellite pipeline and the descriptor set of the acquired image to the
slot's command buffer. -/
theorem drawSatellite_overwrites_transform_and_rewrites_vertex
    (st : RendererState) (position : Vec3) (em : Mat4)
    (hslot : st.currentFrame < st.commandBuffers.length) :
    ((drawSatellite st position).1).uniformBuffers =
      st.uniformBuffers.set st.currentImageIndex
        (some { model := translateMat position, view := st.viewMatrix
                proj := st.projectionMatrix }) ∧
    ((drawSatellite st position).1).satelliteVertex = some position ∧
    (drawSatellite st position).2 =
      [.writeUniform st.currentImageIndex, .writeSatelliteVertex position] ∧
    ((drawSatellite st position).1).commandBuffers.getD st.currentFrame [] =
      (st.commandBuffers.getD st.currentFrame []) ++
        [.bindSatellitePipeline, .bindDescriptorSet st.currentImageIndex,
         .bindSatelliteVertexBuffer, .draw 1] ∧
    ((drawSatellite (updateUniformBuffer st em) position).1).uniformBuffers =
      st.uniformBuffers.set st.currentImageIndex
        (some { model := translateMat position, view := st.viewMatrix
                proj := st.projectionMatrix }) := by
  refine ⟨rfl, rfl, rfl, ?_, ?_⟩
  · simp [drawSatellite, recordCommand, List.set_set, List.length_set,
      List.getD_eq_getElem?_getD, List.getElem?_set_self, hslot]
  · simp only [drawSatellite, updateUniformBuffer, recordCommand]
    simp [List.set_set]

/-- Witness for C9 at the freshly initialized 2-image renderer state with
the satellite at position (1, 2, 3). -/
theorem drawSatellite_overwrites_transform_witness :
    ((drawSatellite (initRendererState 2 mat4Identity mat4Identity)
        { x := 1, y := 2, z := 3 }).1).uniformBuffers =
      (initRendererState 2 mat4Identity mat4Identity).uniformBuffers.set
        (initRendererState 2 mat4Identity mat4Identity).currentImageIndex
        (some { model := translateMat { x := 1, y := 2, z := 3 }
                view := (initRendererState 2 mat4Identity mat4Identity).viewMatrix
                proj := (initRendererState 2 mat4Identity mat4Identity).projectionMatrix }) ∧
    ((drawSatellite (initRendererState 2 mat4Identity mat4Identity)
        { x := 1, y := 2, z := 3 }).1).satelliteVertex =
      some { x := 1, y := 2, z := 3 } ∧
    (drawSatellite (initRendererState 2 mat4Identity mat4Identity)
        { x := 1, y := 2, z := 3 }).2 =
      [.writeUniform (initRendererState 2 mat4Identity mat4Identity).currentImageIndex,
       .writeSatelliteVertex { x := 1, y := 2, z := 3 }] ∧
    ((drawSatellite (initRendererState 2 mat4Identity mat4Identity)
        { x := 1, y := 2, z := 3 }).1).commandBuffers.getD
        (initRendererState 2 mat4Identity mat4Identity).currentFrame [] =
      ((initRendererState 2 mat4Identity mat4Identity).commandBuffers.getD
        (initRendererState 2 mat4Identity mat4Identity).currentFrame []) ++
        [.bindSatellitePipeline,
         .bindDescriptorSet (initRendererState 2 mat4Identity mat4Identity).currentImageIndex,
         .bindSatelliteVertexBuffer, .draw 1] ∧
    ((drawSatellite (updateUniformBuffer
        (initRendererState 2 mat4Identity mat4Identity) mat4Identity)
        { x := 1, y := 2, z := 3 }).1).uniformBuffers =
      (initRendererState 2 mat4Identity mat4Identity).uniformBuffers.set
        (initRendererState 2 mat4Identity mat4Identity).currentImageIndex
        (some { model := translateMat { x := 1, y := 2, z := 3 }
                view := (initRendererState 2 mat4Identity mat4Identity).viewMatrix
                proj := (initRendererState 2 mat4Identity mat4Identity).projectionMatrix }) :=
  drawSatellite_overwrites_transform_and_rewrites_vertex
    (initRendererState 2 mat4Identity mat4Identity)
    { x := 1, y := 2, z := 3 } mat4Identity
    (show 0 < 2 by norm_num)

end OrbitSim
